import Mathlib

/-!
# Verification of the websocket.js connection Supervisor and Correlator

This file gives a shallow embedding of the connection-supervision state
machine (`AlwaysConnected`, the token-stamping variant in `keep-online`)
and of the request-correlation wrapper (`GreatWebSocket` in `events.ts`),
and proves the behavioural properties stated in the specification.

Modelling conventions:
* Sockets, timers and connection tokens are identified by `Nat` ids minted
  from monotone counters (`nextSock`, `nextTimer`, `nextToken`); this models
  JavaScript object identity (`!==` comparison) of fresh `{}` tokens and
  fresh socket instances.
* `setTimeout`/`setInterval` handles are ids; a one-shot timer is *live*
  until it fires or is cleared.  The watchdog field `connectionWatchdog`
  mirrors the `#connectionWatchdog` field; `liveWatchdogs` is the set of
  watchdog timers that have been armed and have neither fired nor been
  cleared (so "advancing time past the watchdog duration" is firing a live
  timer).  Reconnect-delay timers are kept in `reconnectTimers`.
* `dispatchEvent` calls are recorded in the `events` trace; `close()` calls
  on sockets are recorded in `closeCalls`.
* The asynchronous handshake continuation (the `.then` body registered by
  `handleWebSocketOpen`) is the separate function `resolveHandshake`,
  applied to the token the closure captured; the environment runs it
  whenever the handshake promise settles.
-/

/-- Connection states, from `models.ts` (`ConnectionState`). -/
inductive ConnState
  | disconnected
  | connecting
  | reconnecting
  | limbo
  | connected
  | error
  deriving DecidableEq, Repr

/-- Events dispatched by the Supervisor (`statechange` carries the new
state, `connectiontimeout` carries nothing). -/
inductive SupEvent
  | statechange (s : ConnState)
  | connectiontimeout
  deriving DecidableEq, Repr

/-- The mutable fields of an `AlwaysConnected` instance together with the
bookkeeping needed to model identity, timers and observable effects. -/
structure SupState where
  active : Bool
  ws : Option Nat
  state : ConnState
  connectionWatchdog : Option Nat
  liveWatchdogs : List Nat
  heartbeatTimer : Option Nat
  connectionToken : Option Nat
  reconnectTimers : List Nat
  nextSock : Nat
  nextTimer : Nat
  nextToken : Nat
  events : List SupEvent
  closeCalls : List Nat
  deriving DecidableEq, Repr

/-- The freshly constructed Supervisor: inactive, no socket, state
`Disconnected`, no timers, no token. -/
def initS : SupState :=
  { active := false, ws := none, state := ConnState.disconnected
    connectionWatchdog := none, liveWatchdogs := [], heartbeatTimer := none
    connectionToken := none, reconnectTimers := []
    nextSock := 0, nextTimer := 0, nextToken := 0
    events := [], closeCalls := [] }

/-- `this.dispatchEvent(e)`: append the event to the observable trace. -/
def dispatchEvent (e : SupEvent) (s : SupState) : SupState :=
  { s with events := s.events ++ [e] }

/-- `this.#ws?.close()`: record a `close()` call on the current socket, if
any.  The socket reference itself is not modified. -/
def closeWs (s : SupState) : SupState :=
  match s.ws with
  | none => s
  | some w => { s with closeCalls := s.closeCalls ++ [w] }

/-- `this.#ws = this.createWs()`: the factory mints a fresh socket. -/
def createSocket (s : SupState) : SupState :=
  { s with ws := some s.nextSock, nextSock := s.nextSock + 1 }

/-- `startConnectionWatchdog`: arm a fresh one-shot watchdog timer and store
its handle in the field (the previous handle, if any, is overwritten
without being cleared, exactly as `setTimeout` assignment does). -/
def startConnectionWatchdog (s : SupState) : SupState :=
  { s with connectionWatchdog := some s.nextTimer
           liveWatchdogs := s.liveWatchdogs ++ [s.nextTimer]
           nextTimer := s.nextTimer + 1 }

/-- `stopConnectionWatchdog`: `clearTimeout` the handle held in the field
(if non-null) and null the field. -/
def stopConnectionWatchdog (s : SupState) : SupState :=
  match s.connectionWatchdog with
  | none => s
  | some t =>
      { s with connectionWatchdog := none
               liveWatchdogs := s.liveWatchdogs.filter (fun x => x ≠ t) }

/-- `transitionToState`: no-op on an identical target; otherwise set the
state, arm the watchdog on entering `Limbo`, disarm it on entering
`Connected`, and dispatch a `statechange` event carrying the new state. -/
def transitionToState (target : ConnState) (s : SupState) : SupState :=
  if s.state = target then s
  else
    let s1 := { s with state := target }
    let s2 :=
      if target = ConnState.limbo then startConnectionWatchdog s1
      else if target = ConnState.connected then stopConnectionWatchdog s1
      else s1
    dispatchEvent (SupEvent.statechange target) s2

/-- `reconnectIfNeeded(eventTarget)`: ignore events from sockets other than
the currently owned one; otherwise invalidate the connection token, and
either settle into `Disconnected` (inactive) or transition to
`Reconnecting`, disarm the watchdog, close and discard the socket, and
schedule the reconnect-delay timer. -/
def reconnectIfNeeded (eventTarget : Option Nat) (s : SupState) : SupState :=
  if eventTarget ≠ none ∧ eventTarget ≠ s.ws then s
  else
    let s1 := { s with connectionToken := none }
    if ¬ s1.active then transitionToState ConnState.disconnected s1
    else
      let s2 := transitionToState ConnState.reconnecting s1
      let s3 := stopConnectionWatchdog s2
      let s4 := closeWs s3
      let s5 := { s4 with ws := none }
      { s5 with reconnectTimers := s5.reconnectTimers ++ [s5.nextTimer]
                nextTimer := s5.nextTimer + 1 }

/-- The reconnect-delay callback firing for a live timer `t`: if still
active and no socket currently exists, create a replacement socket. -/
def fireReconnectTimer (t : Nat) (s : SupState) : SupState :=
  if t ∈ s.reconnectTimers then
    let s1 := { s with reconnectTimers := s.reconnectTimers.filter (fun x => x ≠ t) }
    if ¬ s1.active ∨ s1.ws ≠ none then s1
    else createSocket s1
  else s

/-- The watchdog callback firing for a live (armed, unfired, uncleared)
watchdog timer `t`: dispatch `connectiontimeout` and run the reconnect
procedure.  Firing a dead timer does nothing. -/
def fireWatchdog (t : Nat) (s : SupState) : SupState :=
  if t ∈ s.liveWatchdogs then
    let s1 := { s with liveWatchdogs := s.liveWatchdogs.filter (fun x => x ≠ t) }
    let s2 := dispatchEvent SupEvent.connectiontimeout s1
    reconnectIfNeeded none s2
  else s

/-- `activate()`: throw `"Already active"` if already active (before any
mutation); otherwise become active, transition to `Connecting`, arm the
heartbeat interval and create the socket via the factory. -/
def activateE (s : SupState) : Except String SupState :=
  if s.active then Except.error "Already active"
  else
    let s1 := { s with active := true }
    let s2 := transitionToState ConnState.connecting s1
    let s3 := { s2 with heartbeatTimer := some s2.nextTimer, nextTimer := s2.nextTimer + 1 }
    Except.ok (createSocket s3)

/-- `shutdown()`: null the token, clear the heartbeat interval, disarm the
watchdog, mark inactive, close the current socket (keeping the reference),
and reset the state field directly to `Disconnected` (no `transitionToState`,
hence no `statechange` dispatch). -/
def shutdown (s : SupState) : SupState :=
  let s1 := { s with connectionToken := none }
  let s2 := { s1 with heartbeatTimer := none }
  let s3 := stopConnectionWatchdog s2
  let s4 := { s3 with active := false }
  let s5 := closeWs s4
  { s5 with state := ConnState.disconnected }

/-- `handleWebSocketOpen()`: stamp a fresh connection token, transition to
`Limbo`, and register the handshake continuation.  Returns the token the
continuation closure captured. -/
def handleWebSocketOpen (s : SupState) : SupState × Nat :=
  let c := s.nextToken
  let s1 := { s with connectionToken := some c, nextToken := s.nextToken + 1 }
  (transitionToState ConnState.limbo s1, c)

/-- The handshake continuation (the `.then` body): acts only when the
captured token is still the current token, and only on success, in which
case it transitions to `Connected`. -/
def resolveHandshake (captured : Nat) (success : Bool) (s : SupState) : SupState :=
  if s.connectionToken ≠ some captured then s
  else if success then transitionToState ConnState.connected s
  else s

/-- `handleWebSocketError(ws)`. -/
def handleWebSocketError (w : Nat) (s : SupState) : SupState :=
  reconnectIfNeeded (some w) s

/-- `handleWebSocketClosed(ws)`. -/
def handleWebSocketClosed (w : Nat) (s : SupState) : SupState :=
  reconnectIfNeeded (some w) s

/-- `handleWebSocketHeartbeatTimeout()`. -/
def handleWebSocketHeartbeatTimeout (s : SupState) : SupState :=
  reconnectIfNeeded none s

/-- The operations the environment can perform on a Supervisor: the public
API calls, the settling of a handshake promise, and timer firings. -/
inductive SupOp
  | activate
  | shutdown
  | wsOpen
  | wsError (w : Nat)
  | wsClosed (w : Nat)
  | hbTimeout
  | resolveHs (captured : Nat) (success : Bool)
  | fireWd (t : Nat)
  | fireRc (t : Nat)
  deriving DecidableEq, Repr

/-- Run one operation.  A throwing `activate()` leaves the state unchanged
(the guard precedes every mutation). -/
def runOp (op : SupOp) (s : SupState) : SupState :=
  match op with
  | SupOp.activate =>
      match activateE s with
      | Except.ok s' => s'
      | Except.error _ => s
  | SupOp.shutdown => shutdown s
  | SupOp.wsOpen => (handleWebSocketOpen s).1
  | SupOp.wsError w => handleWebSocketError w s
  | SupOp.wsClosed w => handleWebSocketClosed w s
  | SupOp.hbTimeout => handleWebSocketHeartbeatTimeout s
  | SupOp.resolveHs c b => resolveHandshake c b s
  | SupOp.fireWd t => fireWatchdog t s
  | SupOp.fireRc t => fireReconnectTimer t s

/-- Run a list of operations in order. -/
def runOps (l : List SupOp) (s : SupState) : SupState :=
  l.foldl (fun s op => runOp op s) s

/-!
## The `GreatWebSocket` wrapper (Correlator), from `events.ts`

A `RemoteCommand` carries a match predicate and a response-handling
transform; the transform may throw, modelled with `Except`.  A
`PendingCommand` is one in-flight exchange; the `cid` field models the
JavaScript object identity of the freshly allocated `cmd` object that
`call` pushes (the removal filter `cmd !== matchedCommand` compares
identities).  `call` mints fresh `cid`s from a counter, so `cid`s in the
pending list are distinct.
-/

/-- A command, as consumed by the Correlator (`rpc.ts` `RemoteCommand`,
restricted to the two operations `tryHandleAsControlMessage` uses). -/
structure RemoteCommand (Msg Resp Err : Type) where
  responseMatches : Msg → Bool
  handleResponse : Msg → Except Err Resp

/-- One pending exchange (`internal.ts` `PendingCommand`); `cid` is the
object identity of the entry. -/
structure PendingCommand (Msg Resp Err : Type) where
  cid : Nat
  command : RemoteCommand Msg Resp Err

/-- `tryHandleAsControlMessage(message)` acting on the pending list.  On
success returns the handled flag, the new pending list, and the promise
resolution performed (identity of the resolved exchange and the transform's
result).  If the matched command's `handleResponse` throws, the exception
propagates before any mutation (`Except.error`). -/
def tryHandleAsControlMessage {Msg Resp Err : Type}
    (pending : List (PendingCommand Msg Resp Err)) (message : Msg) :
    Except Err (Bool × List (PendingCommand Msg Resp Err) × Option (Nat × Resp)) :=
  match pending.find? (fun cmd => cmd.command.responseMatches message) with
  | some m =>
      match m.command.handleResponse message with
      | Except.ok result =>
          Except.ok (true,
            pending.filter (fun cmd => cmd.cid ≠ m.cid),
            some (m.cid, result))
      | Except.error e => Except.error e
  | none => Except.ok (false, pending, none)

/-- The Correlator's mutable state: the pending list, the fresh-identity
counter, and the trace of promise resolutions. -/
structure CorrState (Msg Resp Err : Type) where
  pendingCommands : List (PendingCommand Msg Resp Err)
  nextCid : Nat
  resolved : List (Nat × Resp)

/-- `call(command)`: allocate a fresh exchange object and push it onto the
pending list (issuance order). -/
def callCmd {Msg Resp Err : Type} (cmd : RemoteCommand Msg Resp Err)
    (st : CorrState Msg Resp Err) : CorrState Msg Resp Err :=
  { st with pendingCommands := st.pendingCommands ++ [⟨st.nextCid, cmd⟩]
            nextCid := st.nextCid + 1 }

/-- One dispatch step on the Correlator state: on a thrown transform the
state is unchanged (the field is never reassigned) and the exception is
reported to the caller. -/
def handleMessageStep {Msg Resp Err : Type} (message : Msg)
    (st : CorrState Msg Resp Err) :
    CorrState Msg Resp Err × Except Err Bool :=
  match tryHandleAsControlMessage st.pendingCommands message with
  | Except.ok (b, p, r) =>
      ({ st with pendingCommands := p, resolved := st.resolved ++ r.toList },
       Except.ok b)
  | Except.error e => (st, Except.error e)

/-- `GreatWebSocket.isConnected()`. -/
def isConnected (s : SupState) : Bool :=
  s.state = ConnState.connected

/-- `GreatWebSocket.send(data)`: returns `false` without touching the
socket unless the Supervisor reports `Connected`; otherwise performs
`this.websocket?.send(data)` and returns `true`.  The second component is
the write that was performed, if any (socket id and payload). -/
def send {Payload : Type} (s : SupState) (data : Payload) :
    Bool × Option (Nat × Payload) :=
  if ¬ isConnected s then (false, none)
  else
    match s.ws with
    | none => (true, none)
    | some w => (true, some (w, data))

/-- A concrete command that matches every message and whose transform
succeeds, returning the message plus one. -/
def okCmd : RemoteCommand Nat Nat Nat :=
  { responseMatches := fun _ => true, handleResponse := fun m => Except.ok (m + 1) }

/-- A concrete command that matches no message. -/
def noCmd : RemoteCommand Nat Nat Nat :=
  { responseMatches := fun _ => false, handleResponse := fun m => Except.ok m }

/-- A concrete command that matches every message and whose transform
throws. -/
def throwCmd : RemoteCommand Nat Nat Nat :=
  { responseMatches := fun _ => true, handleResponse := fun _ => Except.error 7 }

/-- `c` is an expired token for `s`: below the mint counter and not the
current token.  Once a token is expired, no operation can make it current
again, because fresh tokens are minted strictly above the counter. -/
def TokenAvoid (c : Nat) (s : SupState) : Prop :=
  c < s.nextToken ∧ s.connectionToken ≠ some c

/-!
## Helper lemmas

Field-projection lemmas for the Supervisor's building blocks, used to push
computations through compositions of the source functions.
-/

@[simp] lemma dispatchEvent_active (e : SupEvent) (s : SupState) :
    (dispatchEvent e s).active = s.active := rfl

@[simp] lemma dispatchEvent_connectionToken (e : SupEvent) (s : SupState) :
    (dispatchEvent e s).connectionToken = s.connectionToken := rfl

@[simp] lemma dispatchEvent_nextToken (e : SupEvent) (s : SupState) :
    (dispatchEvent e s).nextToken = s.nextToken := rfl

@[simp] lemma dispatchEvent_state (e : SupEvent) (s : SupState) :
    (dispatchEvent e s).state = s.state := rfl

@[simp] lemma dispatchEvent_events (e : SupEvent) (s : SupState) :
    (dispatchEvent e s).events = s.events ++ [e] := rfl

@[simp] lemma dispatchEvent_ws (e : SupEvent) (s : SupState) :
    (dispatchEvent e s).ws = s.ws := rfl

@[simp] lemma dispatchEvent_liveWatchdogs (e : SupEvent) (s : SupState) :
    (dispatchEvent e s).liveWatchdogs = s.liveWatchdogs := rfl

@[simp] lemma dispatchEvent_connectionWatchdog (e : SupEvent) (s : SupState) :
    (dispatchEvent e s).connectionWatchdog = s.connectionWatchdog := rfl

@[simp] lemma closeWs_connectionToken (s : SupState) :
    (closeWs s).connectionToken = s.connectionToken := by
  unfold closeWs; split <;> rfl

@[simp] lemma closeWs_nextToken (s : SupState) :
    (closeWs s).nextToken = s.nextToken := by
  unfold closeWs; split <;> rfl

@[simp] lemma closeWs_events (s : SupState) :
    (closeWs s).events = s.events := by
  unfold closeWs; split <;> rfl

@[simp] lemma closeWs_state (s : SupState) :
    (closeWs s).state = s.state := by
  unfold closeWs; split <;> rfl

@[simp] lemma closeWs_active (s : SupState) :
    (closeWs s).active = s.active := by
  unfold closeWs; split <;> rfl

@[simp] lemma closeWs_liveWatchdogs (s : SupState) :
    (closeWs s).liveWatchdogs = s.liveWatchdogs := by
  unfold closeWs; split <;> rfl

@[simp] lemma closeWs_ws (s : SupState) :
    (closeWs s).ws = s.ws := by
  unfold closeWs; split <;> rfl

@[simp] lemma createSocket_connectionToken (s : SupState) :
    (createSocket s).connectionToken = s.connectionToken := rfl

@[simp] lemma createSocket_nextToken (s : SupState) :
    (createSocket s).nextToken = s.nextToken := rfl

@[simp] lemma createSocket_events (s : SupState) :
    (createSocket s).events = s.events := rfl

@[simp] lemma startConnectionWatchdog_connectionToken (s : SupState) :
    (startConnectionWatchdog s).connectionToken = s.connectionToken := rfl

@[simp] lemma startConnectionWatchdog_nextToken (s : SupState) :
    (startConnectionWatchdog s).nextToken = s.nextToken := rfl

@[simp] lemma startConnectionWatchdog_state (s : SupState) :
    (startConnectionWatchdog s).state = s.state := rfl

@[simp] lemma startConnectionWatchdog_events (s : SupState) :
    (startConnectionWatchdog s).events = s.events := rfl

@[simp] lemma startConnectionWatchdog_active (s : SupState) :
    (startConnectionWatchdog s).active = s.active := rfl

@[simp] lemma startConnectionWatchdog_ws (s : SupState) :
    (startConnectionWatchdog s).ws = s.ws := rfl

@[simp] lemma startConnectionWatchdog_liveWatchdogs (s : SupState) :
    (startConnectionWatchdog s).liveWatchdogs = s.liveWatchdogs ++ [s.nextTimer] := rfl

@[simp] lemma startConnectionWatchdog_connectionWatchdog (s : SupState) :
    (startConnectionWatchdog s).connectionWatchdog = some s.nextTimer := rfl

@[simp] lemma stopConnectionWatchdog_connectionToken (s : SupState) :
    (stopConnectionWatchdog s).connectionToken = s.connectionToken := by
  unfold stopConnectionWatchdog; split <;> rfl

@[simp] lemma stopConnectionWatchdog_nextToken (s : SupState) :
    (stopConnectionWatchdog s).nextToken = s.nextToken := by
  unfold stopConnectionWatchdog; split <;> rfl

@[simp] lemma stopConnectionWatchdog_state (s : SupState) :
    (stopConnectionWatchdog s).state = s.state := by
  unfold stopConnectionWatchdog; split <;> rfl

@[simp] lemma stopConnectionWatchdog_active (s : SupState) :
    (stopConnectionWatchdog s).active = s.active := by
  unfold stopConnectionWatchdog; split <;> rfl

@[simp] lemma stopConnectionWatchdog_events (s : SupState) :
    (stopConnectionWatchdog s).events = s.events := by
  unfold stopConnectionWatchdog; split <;> rfl

@[simp] lemma stopConnectionWatchdog_ws (s : SupState) :
    (stopConnectionWatchdog s).ws = s.ws := by
  unfold stopConnectionWatchdog; split <;> rfl

lemma transitionToState_connectionToken (t : ConnState) (s : SupState) :
    (transitionToState t s).connectionToken = s.connectionToken := by
  unfold transitionToState
  split
  · rfl
  · split
    · simp
    · split <;> simp

lemma transitionToState_nextToken (t : ConnState) (s : SupState) :
    (transitionToState t s).nextToken = s.nextToken := by
  unfold transitionToState
  split
  · rfl
  · split
    · simp
    · split <;> simp

lemma transitionToState_state (t : ConnState) (s : SupState) :
    (transitionToState t s).state = if s.state = t then s.state else t := by
  unfold transitionToState
  split
  · simp_all
  · split
    · simp_all
    · split <;> simp_all

lemma transitionToState_state_eq (t : ConnState) (s : SupState) :
    (transitionToState t s).state = t := by
  rw [transitionToState_state]
  split <;> simp_all

lemma transitionToState_active (t : ConnState) (s : SupState) :
    (transitionToState t s).active = s.active := by
  unfold transitionToState
  split
  · rfl
  · split
    · simp
    · split <;> simp

lemma transitionToState_self (t : ConnState) (s : SupState) (h : s.state = t) :
    transitionToState t s = s := by
  unfold transitionToState
  rw [if_pos h]

lemma transitionToState_events (t : ConnState) (s : SupState) (h : s.state ≠ t) :
    (transitionToState t s).events = s.events ++ [SupEvent.statechange t] := by
  unfold transitionToState
  rw [if_neg h]
  split
  · simp
  · split <;> simp

@[simp] lemma dispatchEvent_closeCalls (e : SupEvent) (s : SupState) :
    (dispatchEvent e s).closeCalls = s.closeCalls := rfl

@[simp] lemma startConnectionWatchdog_closeCalls (s : SupState) :
    (startConnectionWatchdog s).closeCalls = s.closeCalls := rfl

@[simp] lemma stopConnectionWatchdog_closeCalls (s : SupState) :
    (stopConnectionWatchdog s).closeCalls = s.closeCalls := by
  unfold stopConnectionWatchdog; split <;> rfl

lemma closeWs_closeCalls_of_some (s : SupState) (w : Nat) (h : s.ws = some w) :
    (closeWs s).closeCalls = s.closeCalls ++ [w] := by
  unfold closeWs
  rw [h]

lemma transitionToState_closeCalls (t : ConnState) (s : SupState) :
    (transitionToState t s).closeCalls = s.closeCalls := by
  unfold transitionToState
  split
  · rfl
  · split
    · simp
    · split <;> simp

lemma shutdown_ws (s : SupState) : (shutdown s).ws = s.ws := by
  simp [shutdown]

lemma shutdown_events (s : SupState) : (shutdown s).events = s.events := by
  simp [shutdown]

lemma shutdown_closeCalls_of_some (s : SupState) (w : Nat) (h : s.ws = some w) :
    (shutdown s).closeCalls = s.closeCalls ++ [w] := by
  unfold shutdown
  have h4 : (stopConnectionWatchdog
      { s with connectionToken := none, heartbeatTimer := none }).ws = s.ws := by
    simp
  rw [closeWs_closeCalls_of_some _ w (by simp [h4, h])]
  simp

/-!
## Claim theorems
-/

/-- C4: for every Supervisor state and every socket `w` that is not the
currently owned socket reference, `handleWebSocketError w` and
`handleWebSocketClosed w` leave the whole state unchanged (state, active
flag, socket reference, connection token) and dispatch no notification:
stale-socket suppression. -/
theorem C4_stale_socket_suppression (s : SupState) (w : Nat) (h : s.ws ≠ some w) :
    handleWebSocketError w s = s ∧ handleWebSocketClosed w s = s := by
  have hg : (some w ≠ (none : Option Nat)) ∧ some w ≠ s.ws :=
    ⟨Option.some_ne_none w, fun hc => h hc.symm⟩
  have hr : reconnectIfNeeded (some w) s = s := by
    unfold reconnectIfNeeded
    rw [if_pos hg]
  exact ⟨hr, hr⟩

/-- C4 witness: a stale-socket error/close on the fresh Supervisor (which
owns no socket) is a complete no-op. -/
theorem C4_witness :
    handleWebSocketError 0 initS = initS ∧ handleWebSocketClosed 0 initS = initS :=
  C4_stale_socket_suppression initS 0 (by decide)

/-- C6: `activate()` while the Supervisor is already active throws the
misuse error `"Already active"` synchronously; the guard precedes every
mutation, so the state, socket reference, timers and token are unchanged
and the socket factory is never invoked (no second socket is minted). -/
theorem C6_activate_while_active (s : SupState) (h : s.active = true) :
    activateE s = Except.error "Already active" ∧ runOp SupOp.activate s = s := by
  have he : activateE s = Except.error "Already active" := by
    unfold activateE
    rw [if_pos h]
  exact ⟨he, by simp [runOp, he]⟩

/-- C6 witness: the second `activate()` on an activated fresh Supervisor
throws and changes nothing. -/
theorem C6_witness :
    activateE (runOp SupOp.activate initS) = Except.error "Already active" ∧
    runOp SupOp.activate (runOp SupOp.activate initS) = runOp SupOp.activate initS :=
  C6_activate_while_active (runOp SupOp.activate initS) (by decide)

/-- C10: `shutdown()` closes the currently referenced socket but does not
clear the reference: the `websocket` accessor still returns the closed
socket, and each further `shutdown()` invokes `close()` on that same
socket again. -/
theorem C10_shutdown_retains_socket (s : SupState) (w : Nat) (h : s.ws = some w) :
    (shutdown s).ws = some w ∧
    (shutdown s).closeCalls = s.closeCalls ++ [w] ∧
    (shutdown (shutdown s)).closeCalls = s.closeCalls ++ [w, w] := by
  have h1 : (shutdown s).ws = some w := by rw [shutdown_ws, h]
  refine ⟨h1, shutdown_closeCalls_of_some s w h, ?_⟩
  rw [shutdown_closeCalls_of_some (shutdown s) w h1, shutdown_closeCalls_of_some s w h]
  simp

/-- C10 witness: shutting the activated fresh Supervisor down twice keeps
the socket reference and closes socket `0` twice. -/
theorem C10_witness :
    (shutdown (runOp SupOp.activate initS)).ws = some 0 ∧
    (shutdown (runOp SupOp.activate initS)).closeCalls =
      (runOp SupOp.activate initS).closeCalls ++ [0] ∧
    (shutdown (shutdown (runOp SupOp.activate initS))).closeCalls =
      (runOp SupOp.activate initS).closeCalls ++ [0, 0] :=
  C10_shutdown_retains_socket (runOp SupOp.activate initS) 0 (by decide)

/-- C9: if the first matching pending exchange's response-handling
transform throws during dispatch, the exception propagates to the caller,
the pending set is unchanged, and no completion handle is resolved or
rejected. -/
theorem C9_throwing_transform {Msg Resp Err : Type} (st : CorrState Msg Resp Err)
    (message : Msg) (m : PendingCommand Msg Resp Err) (e : Err)
    (hfind : st.pendingCommands.find? (fun c => c.command.responseMatches message) = some m)
    (herr : m.command.handleResponse message = Except.error e) :
    tryHandleAsControlMessage st.pendingCommands message = Except.error e ∧
    handleMessageStep message st = (st, Except.error e) := by
  have ht : tryHandleAsControlMessage st.pendingCommands message = Except.error e := by
    unfold tryHandleAsControlMessage
    rw [hfind]
    simp only [herr]
  exact ⟨ht, by unfold handleMessageStep; rw [ht]⟩

/-- C9 witness: a throwing transform on a one-element pending list
propagates the exception and leaves the Correlator state untouched. -/
theorem C9_witness :
    tryHandleAsControlMessage
        ({ pendingCommands := [⟨0, throwCmd⟩], nextCid := 1, resolved := [] } :
          CorrState Nat Nat Nat).pendingCommands 5 =
      Except.error 7 ∧
    handleMessageStep 5
        ({ pendingCommands := [⟨0, throwCmd⟩], nextCid := 1, resolved := [] } :
          CorrState Nat Nat Nat) =
      ({ pendingCommands := [⟨0, throwCmd⟩], nextCid := 1, resolved := [] },
       Except.error 7) :=
  C9_throwing_transform
    ({ pendingCommands := [⟨0, throwCmd⟩], nextCid := 1, resolved := [] } :
      CorrState Nat Nat Nat) 5 ⟨0, throwCmd⟩ 7 rfl rfl

/-- The reconnect procedure run with no socket-identity check (heartbeat
timeout or watchdog) while active: stays active, lands in `Reconnecting`,
and dispatches one `statechange` exactly when the state actually changed. -/
lemma reconnect_none_active (s : SupState) (h : s.active = true) :
    (reconnectIfNeeded none s).active = true ∧
    (reconnectIfNeeded none s).state = ConnState.reconnecting ∧
    (reconnectIfNeeded none s).events =
      s.events ++ (if s.state = ConnState.reconnecting then []
                   else [SupEvent.statechange ConnState.reconnecting]) := by
  unfold reconnectIfNeeded
  rw [if_neg (by simp)]
  rw [if_neg (by simp [h])]
  refine ⟨?_, ?_, ?_⟩
  · simp [transitionToState_active, h]
  · simp [transitionToState_state_eq]
  · by_cases hr : s.state = ConnState.reconnecting
    · rw [if_pos hr]
      have ht := transitionToState_self ConnState.reconnecting
        { s with connectionToken := none } hr
      simp [ht]
    · rw [if_neg hr]
      have ht := transitionToState_events ConnState.reconnecting
        { s with connectionToken := none } hr
      simp [ht]

/-- C5 counterexample: the claim says a `statechange` notification is
dispatched exactly once for each operation that actually changes the
state; but `shutdown()` after `activate()` changes the state (from
`Connecting` to `Disconnected`, by writing the field directly) while
dispatching no notification at all. -/
theorem C5_silent_shutdown_counterexample :
    (shutdown (runOp SupOp.activate initS)).state ≠ (runOp SupOp.activate initS).state ∧
    (shutdown (runOp SupOp.activate initS)).events = (runOp SupOp.activate initS).events := by
  decide

/-- C5 (amended): every `transitionToState` call dispatches exactly one
`statechange` notification when the target differs from the current state
and none when it is equal; `shutdown`'s direct reset of the state field to
`Disconnected` dispatches no notification even when it changes the state;
and a failure signal that moves the machine into `Reconnecting` dispatches
one notification while a second consecutive failure signal (already
`Reconnecting`) dispatches none, so the pair yields exactly one. -/
theorem C5_statechange_amended (s : SupState) (t : ConnState) :
    (s.state = t → transitionToState t s = s) ∧
    (s.state ≠ t →
       (transitionToState t s).events = s.events ++ [SupEvent.statechange t] ∧
       (transitionToState t s).state = t) ∧
    (shutdown s).events = s.events ∧
    (s.active = true → s.state ≠ ConnState.reconnecting →
       (runOps [SupOp.hbTimeout, SupOp.hbTimeout] s).events =
         s.events ++ [SupEvent.statechange ConnState.reconnecting]) := by
  refine ⟨transitionToState_self t s,
          fun h => ⟨transitionToState_events t s h, transitionToState_state_eq t s⟩,
          shutdown_events s, ?_⟩
  intro ha hr
  show (reconnectIfNeeded none (reconnectIfNeeded none s)).events = _
  obtain ⟨ha1, hs1, he1⟩ := reconnect_none_active s ha
  obtain ⟨_, _, he2⟩ := reconnect_none_active _ ha1
  rw [he2, he1, if_neg hr, if_pos hs1]
  simp

/-- C5 witness: on the activated fresh Supervisor (state `Connecting`), a
same-state transition is a no-op, and two consecutive heartbeat-timeout
failure signals dispatch exactly one `Reconnecting` notification. -/
theorem C5_witness :
    transitionToState ConnState.connecting (runOp SupOp.activate initS) =
      runOp SupOp.activate initS ∧
    (runOps [SupOp.hbTimeout, SupOp.hbTimeout] (runOp SupOp.activate initS)).events =
      (runOp SupOp.activate initS).events ++ [SupEvent.statechange ConnState.reconnecting] :=
  ⟨(C5_statechange_amended (runOp SupOp.activate initS) ConnState.connecting).1 (by decide),
   (C5_statechange_amended (runOp SupOp.activate initS)
      ConnState.connecting).2.2.2 (by decide) (by decide)⟩

/-- C7 counterexample: the claimed scenario (activate, transport-open,
handshake resolves `true`) ends `Connected` but dispatches three
`statechange` notifications, not the claimed two: `activate()` itself
transitions to `Connecting` and notifies. -/
theorem C7_two_notifications_counterexample :
    (runOps [SupOp.activate, SupOp.wsOpen, SupOp.resolveHs 0 true] initS).state =
      ConnState.connected ∧
    ((runOps [SupOp.activate, SupOp.wsOpen, SupOp.resolveHs 0 true] initS).events.countP
       (fun e => match e with
                 | SupEvent.statechange _ => true
                 | SupEvent.connectiontimeout => false)) = 3 ∧
    ¬ ((runOps [SupOp.activate, SupOp.wsOpen, SupOp.resolveHs 0 true] initS).events.countP
       (fun e => match e with
                 | SupEvent.statechange _ => true
                 | SupEvent.connectiontimeout => false)) = 2 := by
  decide

/-- C7 (amended): starting from the initial `Disconnected` state, the
sequence activate, transport-open, handshake-confirmation resolving `true`
within the timeout leaves the Supervisor `Connected` and dispatches exactly
three `statechange` notifications: `Connecting`, `Limbo`, `Connected`. -/
theorem C7_activation_scenario :
    (runOps [SupOp.activate, SupOp.wsOpen, SupOp.resolveHs 0 true] initS).state =
      ConnState.connected ∧
    (runOps [SupOp.activate, SupOp.wsOpen, SupOp.resolveHs 0 true] initS).events =
      [SupEvent.statechange ConnState.connecting,
       SupEvent.statechange ConnState.limbo,
       SupEvent.statechange ConnState.connected] := by
  decide

/-- C8 counterexample: the claim says `send` returns `true` only when a
write to the socket was performed; but in the reachable state where the
handshake confirmed while no socket reference exists (`Connected` with a
null socket), `send` returns `true` and performs no write
(`this.websocket?.send(data)` is a no-op on null). -/
theorem C8_send_true_without_write_counterexample :
    (runOps [SupOp.wsOpen, SupOp.resolveHs 0 true] initS).state = ConnState.connected ∧
    (runOps [SupOp.wsOpen, SupOp.resolveHs 0 true] initS).ws = none ∧
    send (runOps [SupOp.wsOpen, SupOp.resolveHs 0 true] initS) (42 : Nat) = (true, none) := by
  decide

/-- C8 (amended): `send` returns `false` and performs no write whenever the
Supervisor's state is not `Connected`; when the state is `Connected` it
returns `true`, performing the write exactly when a current socket
reference exists (with a null reference it returns `true` without any
write). -/
theorem C8_send_gated_on_connected {Payload : Type} (s : SupState) (data : Payload) :
    (s.state ≠ ConnState.connected → send s data = (false, none)) ∧
    (∀ w, s.state = ConnState.connected → s.ws = some w →
       send s data = (true, some (w, data))) ∧
    (s.state = ConnState.connected → s.ws = none → send s data = (true, none)) := by
  unfold send isConnected
  refine ⟨fun h => ?_, fun w h hw => ?_, fun h hw => ?_⟩
  · rw [if_pos (by simp [h])]
  · rw [if_neg (by simp [h]), hw]
  · rw [if_neg (by simp [h]), hw]

/-- C8 witness: on the fresh (disconnected) Supervisor `send` refuses, and
after the full connection scenario it writes the payload to socket `0`. -/
theorem C8_witness :
    send initS (5 : Nat) = (false, none) ∧
    send (runOps [SupOp.activate, SupOp.wsOpen, SupOp.resolveHs 0 true] initS) (5 : Nat) =
      (true, some (0, 5)) :=
  ⟨(C8_send_gated_on_connected initS 5).1 (by decide),
   (C8_send_gated_on_connected
      (runOps [SupOp.activate, SupOp.wsOpen, SupOp.resolveHs 0 true] initS) 5).2.1 0
      (by decide) (by decide)⟩

/-!
## Token freshness (for the stale-handshake property)
-/

lemma reconnectIfNeeded_nextToken (et : Option Nat) (s : SupState) :
    (reconnectIfNeeded et s).nextToken = s.nextToken := by
  unfold reconnectIfNeeded
  split
  · rfl
  · dsimp only
    split
    · rw [transitionToState_nextToken]
    · simp [transitionToState_nextToken]

lemma reconnectIfNeeded_token (et : Option Nat) (s : SupState) :
    (reconnectIfNeeded et s).connectionToken = none ∨
    (reconnectIfNeeded et s).connectionToken = s.connectionToken := by
  unfold reconnectIfNeeded
  split
  · exact Or.inr rfl
  · left
    dsimp only
    split
    · rw [transitionToState_connectionToken]
    · simp [transitionToState_connectionToken]

lemma reconnect_token_of_pass (et : Option Nat) (s : SupState)
    (h : et = none ∨ et = s.ws) :
    (reconnectIfNeeded et s).connectionToken = none := by
  unfold reconnectIfNeeded
  rw [if_neg (by rcases h with h | h <;> exact fun hc => absurd h (by simp_all))]
  dsimp only
  split
  · rw [transitionToState_connectionToken]
  · simp [transitionToState_connectionToken]

lemma shutdown_nextToken (s : SupState) : (shutdown s).nextToken = s.nextToken := by
  simp [shutdown]

lemma shutdown_token (s : SupState) : (shutdown s).connectionToken = none := by
  simp [shutdown]

lemma runOp_activate_nextToken (s : SupState) :
    (runOp SupOp.activate s).nextToken = s.nextToken := by
  simp only [runOp]
  unfold activateE
  by_cases h : s.active = true
  · rw [if_pos h]
  · rw [if_neg h]
    dsimp only
    simp [transitionToState_nextToken]

lemma runOp_activate_token (s : SupState) :
    (runOp SupOp.activate s).connectionToken = s.connectionToken := by
  simp only [runOp]
  unfold activateE
  by_cases h : s.active = true
  · rw [if_pos h]
  · rw [if_neg h]
    dsimp only
    simp [transitionToState_connectionToken]

lemma resolveHandshake_nextToken (c : Nat) (b : Bool) (s : SupState) :
    (resolveHandshake c b s).nextToken = s.nextToken := by
  unfold resolveHandshake
  split
  · rfl
  · split
    · rw [transitionToState_nextToken]
    · rfl

lemma resolveHandshake_token (c : Nat) (b : Bool) (s : SupState) :
    (resolveHandshake c b s).connectionToken = s.connectionToken := by
  unfold resolveHandshake
  split
  · rfl
  · split
    · rw [transitionToState_connectionToken]
    · rfl

lemma fireWatchdog_nextToken (t : Nat) (s : SupState) :
    (fireWatchdog t s).nextToken = s.nextToken := by
  unfold fireWatchdog
  split
  · dsimp only
    rw [reconnectIfNeeded_nextToken]
    simp
  · rfl

lemma fireWatchdog_token (t : Nat) (s : SupState) :
    (fireWatchdog t s).connectionToken = none ∨
    (fireWatchdog t s).connectionToken = s.connectionToken := by
  unfold fireWatchdog
  split
  · dsimp only
    rcases reconnectIfNeeded_token none
      (dispatchEvent SupEvent.connectiontimeout
        { s with liveWatchdogs := s.liveWatchdogs.filter (fun x => x ≠ t) }) with h | h
    · exact Or.inl h
    · rw [h]
      exact Or.inr rfl
  · exact Or.inr rfl

lemma fireReconnectTimer_nextToken (t : Nat) (s : SupState) :
    (fireReconnectTimer t s).nextToken = s.nextToken := by
  unfold fireReconnectTimer
  split
  · dsimp only
    split <;> rfl
  · rfl

lemma fireReconnectTimer_token (t : Nat) (s : SupState) :
    (fireReconnectTimer t s).connectionToken = s.connectionToken := by
  unfold fireReconnectTimer
  split
  · dsimp only
    split <;> rfl
  · rfl

lemma handleWebSocketOpen_nextToken (s : SupState) :
    (handleWebSocketOpen s).1.nextToken = s.nextToken + 1 := by
  unfold handleWebSocketOpen
  rw [transitionToState_nextToken]

lemma handleWebSocketOpen_token (s : SupState) :
    (handleWebSocketOpen s).1.connectionToken = some s.nextToken := by
  unfold handleWebSocketOpen
  rw [transitionToState_connectionToken]

lemma runOp_nextToken_le (op : SupOp) (s : SupState) :
    s.nextToken ≤ (runOp op s).nextToken := by
  cases op with
  | activate => rw [runOp_activate_nextToken]
  | shutdown => rw [show runOp SupOp.shutdown s = shutdown s from rfl, shutdown_nextToken]
  | wsOpen =>
      rw [show runOp SupOp.wsOpen s = (handleWebSocketOpen s).1 from rfl,
          handleWebSocketOpen_nextToken]
      exact Nat.le_succ _
  | wsError w => rw [show runOp (SupOp.wsError w) s = reconnectIfNeeded (some w) s from rfl,
      reconnectIfNeeded_nextToken]
  | wsClosed w => rw [show runOp (SupOp.wsClosed w) s = reconnectIfNeeded (some w) s from rfl,
      reconnectIfNeeded_nextToken]
  | hbTimeout => rw [show runOp SupOp.hbTimeout s = reconnectIfNeeded none s from rfl,
      reconnectIfNeeded_nextToken]
  | resolveHs c b => rw [show runOp (SupOp.resolveHs c b) s = resolveHandshake c b s from rfl,
      resolveHandshake_nextToken]
  | fireWd t => rw [show runOp (SupOp.fireWd t) s = fireWatchdog t s from rfl,
      fireWatchdog_nextToken]
  | fireRc t => rw [show runOp (SupOp.fireRc t) s = fireReconnectTimer t s from rfl,
      fireReconnectTimer_nextToken]

lemma nextToken_le_runOps (l : List SupOp) (s : SupState) :
    s.nextToken ≤ (runOps l s).nextToken := by
  induction l generalizing s with
  | nil => exact Nat.le_refl _
  | cons op l ih =>
      calc s.nextToken ≤ (runOp op s).nextToken := runOp_nextToken_le op s
        _ ≤ (runOps l (runOp op s)).nextToken := ih (runOp op s)

lemma tokenAvoid_runOp (c : Nat) (op : SupOp) (s : SupState) (h : TokenAvoid c s) :
    TokenAvoid c (runOp op s) := by
  obtain ⟨hlt, hne⟩ := h
  have hle := runOp_nextToken_le op s
  refine ⟨Nat.lt_of_lt_of_le hlt hle, ?_⟩
  cases op with
  | activate => rw [runOp_activate_token]; exact hne
  | shutdown => rw [show runOp SupOp.shutdown s = shutdown s from rfl, shutdown_token]; simp
  | wsOpen =>
      rw [show runOp SupOp.wsOpen s = (handleWebSocketOpen s).1 from rfl,
          handleWebSocketOpen_token]
      intro hcontra
      exact absurd (Option.some.inj hcontra) (Nat.ne_of_gt hlt)
  | wsError w =>
      rw [show runOp (SupOp.wsError w) s = reconnectIfNeeded (some w) s from rfl]
      rcases reconnectIfNeeded_token (some w) s with h | h <;> rw [h]
      · simp
      · exact hne
  | wsClosed w =>
      rw [show runOp (SupOp.wsClosed w) s = reconnectIfNeeded (some w) s from rfl]
      rcases reconnectIfNeeded_token (some w) s with h | h <;> rw [h]
      · simp
      · exact hne
  | hbTimeout =>
      rw [show runOp SupOp.hbTimeout s = reconnectIfNeeded none s from rfl]
      rcases reconnectIfNeeded_token none s with h | h <;> rw [h]
      · simp
      · exact hne
  | resolveHs c' b =>
      rw [show runOp (SupOp.resolveHs c' b) s = resolveHandshake c' b s from rfl,
          resolveHandshake_token]
      exact hne
  | fireWd t =>
      rw [show runOp (SupOp.fireWd t) s = fireWatchdog t s from rfl]
      rcases fireWatchdog_token t s with h | h <;> rw [h]
      · simp
      · exact hne
  | fireRc t =>
      rw [show runOp (SupOp.fireRc t) s = fireReconnectTimer t s from rfl,
          fireReconnectTimer_token]
      exact hne

lemma tokenAvoid_runOps (c : Nat) (l : List SupOp) (s : SupState) (h : TokenAvoid c s) :
    TokenAvoid c (runOps l s) := by
  induction l generalizing s with
  | nil => exact h
  | cons op l ih => exact ih (runOp op s) (tokenAvoid_runOp c op s h)

/-- C1: stale-handshake suppression via the connection token.  Entering
`Limbo` (`handleWebSocketOpen`) stamps a fresh token, captured by the
handshake continuation.  If the reconnect procedure runs at any later
point (after any interleaved operations `l1`, with an event-target that
passes the socket-identity guard), then however many further operations
`l2` run before the handshake confirmation settles, running the captured
continuation with `true` changes nothing at all — in particular the state
never becomes `Connected`.  Conversely, whenever the captured token is
still the current token when the confirmation resolves `true`, the state
becomes `Connected`. -/
theorem C1_stale_handshake_token (s0 : SupState) (l1 l2 : List SupOp) (et : Option Nat)
    (hpass : et = none ∨ et = (runOps l1 (handleWebSocketOpen s0).1).ws) :
    resolveHandshake (handleWebSocketOpen s0).2 true
        (runOps l2 (reconnectIfNeeded et (runOps l1 (handleWebSocketOpen s0).1))) =
      runOps l2 (reconnectIfNeeded et (runOps l1 (handleWebSocketOpen s0).1)) ∧
    (∀ s : SupState, s.connectionToken = some (handleWebSocketOpen s0).2 →
       (resolveHandshake (handleWebSocketOpen s0).2 true s).state = ConnState.connected) := by
  constructor
  · have hc : (handleWebSocketOpen s0).2 = s0.nextToken := rfl
    have hlt1 : (handleWebSocketOpen s0).2 < (handleWebSocketOpen s0).1.nextToken := by
      rw [hc, handleWebSocketOpen_nextToken]
      exact Nat.lt_succ_self _
    have hlt2 : (handleWebSocketOpen s0).2 < (runOps l1 (handleWebSocketOpen s0).1).nextToken :=
      Nat.lt_of_lt_of_le hlt1 (nextToken_le_runOps l1 _)
    have hAvoid : TokenAvoid (handleWebSocketOpen s0).2
        (reconnectIfNeeded et (runOps l1 (handleWebSocketOpen s0).1)) := by
      constructor
      · rw [reconnectIfNeeded_nextToken]
        exact hlt2
      · rw [reconnect_token_of_pass et _ hpass]
        simp
    have hAvoid2 := tokenAvoid_runOps _ l2 _ hAvoid
    unfold resolveHandshake
    rw [if_pos hAvoid2.2]
  · intro s hs
    unfold resolveHandshake
    rw [if_neg (by simp [hs]), if_pos rfl]
    exact transitionToState_state_eq _ _

/-- C1 witness: on the fresh Supervisor, open then reconnect makes the
captured continuation a no-op even on success, while resolving before the
reconnect moves the state to `Connected`. -/
theorem C1_witness :
    resolveHandshake (handleWebSocketOpen initS).2 true
        (runOps [] (reconnectIfNeeded none (runOps [] (handleWebSocketOpen initS).1))) =
      runOps [] (reconnectIfNeeded none (runOps [] (handleWebSocketOpen initS).1)) ∧
    (resolveHandshake (handleWebSocketOpen initS).2 true
        (handleWebSocketOpen initS).1).state = ConnState.connected :=
  ⟨(C1_stale_handshake_token initS [] [] none (Or.inl rfl)).1,
   (C1_stale_handshake_token initS [] [] none (Or.inl rfl)).2
     (handleWebSocketOpen initS).1 (by decide)⟩

/-!
## Watchdog arming and disarming
-/

@[simp] lemma closeWs_connectionWatchdog (s : SupState) :
    (closeWs s).connectionWatchdog = s.connectionWatchdog := by
  unfold closeWs; split <;> rfl

lemma transitionToState_watchdog_of_ne (tg : ConnState) (s : SupState)
    (h1 : tg ≠ ConnState.limbo) (h2 : tg ≠ ConnState.connected) :
    (transitionToState tg s).connectionWatchdog = s.connectionWatchdog ∧
    (transitionToState tg s).liveWatchdogs = s.liveWatchdogs := by
  by_cases h : s.state = tg
  · rw [transitionToState_self tg s h]
    exact ⟨rfl, rfl⟩
  · unfold transitionToState
    rw [if_neg h]
    dsimp only
    rw [if_neg h1, if_neg h2]
    exact ⟨rfl, rfl⟩

lemma stopConnectionWatchdog_some (s : SupState) (t : Nat)
    (h : s.connectionWatchdog = some t) :
    (stopConnectionWatchdog s).connectionWatchdog = none ∧
    (stopConnectionWatchdog s).liveWatchdogs = s.liveWatchdogs.filter (fun x => x ≠ t) := by
  unfold stopConnectionWatchdog
  rw [h]
  exact ⟨rfl, rfl⟩

lemma reconnectIfNeeded_events_mono (et : Option Nat) (s : SupState) :
    ∃ l, (reconnectIfNeeded et s).events = s.events ++ l := by
  unfold reconnectIfNeeded
  split
  · exact ⟨[], by simp⟩
  · dsimp only
    split
    · by_cases hd : s.state = ConnState.disconnected
      · refine ⟨[], ?_⟩
        rw [transitionToState_self ConnState.disconnected
          { s with connectionToken := none } hd]
        simp
      · refine ⟨[SupEvent.statechange ConnState.disconnected], ?_⟩
        rw [transitionToState_events ConnState.disconnected
          { s with connectionToken := none } hd]
    · by_cases hd : s.state = ConnState.reconnecting
      · refine ⟨[], ?_⟩
        rw [transitionToState_self ConnState.reconnecting
          { s with connectionToken := none } hd]
        simp
      · refine ⟨[SupEvent.statechange ConnState.reconnecting], ?_⟩
        have ht := transitionToState_events ConnState.reconnecting
          { s with connectionToken := none } hd
        simp [ht]

lemma fireWatchdog_mem (t : Nat) (s : SupState) (h : t ∈ s.liveWatchdogs) :
    SupEvent.connectiontimeout ∈ (fireWatchdog t s).events := by
  unfold fireWatchdog
  rw [if_pos h]
  dsimp only
  obtain ⟨l, hl⟩ := reconnectIfNeeded_events_mono none
    (dispatchEvent SupEvent.connectiontimeout
      { s with liveWatchdogs := s.liveWatchdogs.filter (fun x => x ≠ t) })
  rw [hl]
  simp

/-- C2 counterexample: a transport-open delivered after `shutdown()` (the
wiring fires `onopen` on a socket that was closing) puts the inactive
Supervisor in `Limbo` and arms the watchdog; the next failure signal
leaves `Limbo` (to `Disconnected`, via the inactive reconnect path) but
does `not` disarm the watchdog, so advancing time past the watchdog
duration after `Limbo` was left still dispatches a `connectiontimeout`
notification. -/
theorem C2_watchdog_not_disarmed_counterexample :
    (runOps [SupOp.activate, SupOp.shutdown, SupOp.wsOpen, SupOp.hbTimeout] initS).state ≠
      ConnState.limbo ∧
    SupEvent.connectiontimeout ∉
      (runOps [SupOp.activate, SupOp.shutdown, SupOp.wsOpen, SupOp.hbTimeout] initS).events ∧
    SupEvent.connectiontimeout ∈
      (fireWatchdog 1
        (runOps [SupOp.activate, SupOp.shutdown, SupOp.wsOpen, SupOp.hbTimeout] initS)).events := by
  decide

/-- C2 (amended): entering `Limbo` from any other state arms exactly one
fresh watchdog; from a `Limbo` state with one armed watchdog, leaving by a
confirmed handshake (to `Connected`), by the reconnect procedure while
active (to `Reconnecting`), or by `shutdown()` disarms it, and once no
watchdog is live a timer firing does nothing; but leaving `Limbo` via a
failure signal while the Supervisor is inactive (to `Disconnected`) leaves
the watchdog armed, and advancing time past the watchdog duration then
still dispatches a `connectiontimeout` notification. -/
theorem C2_watchdog_amended (s : SupState) (t c : Nat)
    (hs : s.state = ConnState.limbo)
    (hw : s.connectionWatchdog = some t)
    (hl : s.liveWatchdogs = [t]) :
    (∀ s' : SupState, s'.state ≠ ConnState.limbo →
       (handleWebSocketOpen s').1.liveWatchdogs = s'.liveWatchdogs ++ [s'.nextTimer] ∧
       (handleWebSocketOpen s').1.connectionWatchdog = some s'.nextTimer) ∧
    (s.connectionToken = some c →
       (resolveHandshake c true s).connectionWatchdog = none ∧
       (resolveHandshake c true s).liveWatchdogs = []) ∧
    (s.active = true →
       (reconnectIfNeeded none s).connectionWatchdog = none ∧
       (reconnectIfNeeded none s).liveWatchdogs = [] ∧
       (reconnectIfNeeded none s).state = ConnState.reconnecting) ∧
    ((shutdown s).connectionWatchdog = none ∧ (shutdown s).liveWatchdogs = []) ∧
    (∀ (s' : SupState) (t' : Nat), s'.liveWatchdogs = [] → fireWatchdog t' s' = s') ∧
    (s.active = false →
       (reconnectIfNeeded none s).state = ConnState.disconnected ∧
       (reconnectIfNeeded none s).liveWatchdogs = [t] ∧
       SupEvent.connectiontimeout ∈ (fireWatchdog t (reconnectIfNeeded none s)).events) := by
  refine ⟨?_, ?_, ?_, ?_, ?_, ?_⟩
  · intro s' h
    unfold handleWebSocketOpen transitionToState
    dsimp only
    rw [if_neg h]
    rw [if_pos rfl]
    exact ⟨rfl, rfl⟩
  · intro htok
    unfold resolveHandshake
    rw [if_neg (by simp [htok]), if_pos rfl]
    unfold transitionToState
    rw [if_neg (by simp [hs])]
    dsimp only
    rw [if_neg (by decide), if_pos rfl]
    have hst := stopConnectionWatchdog_some { s with state := ConnState.connected } t hw
    refine ⟨by simp [hst.1], ?_⟩
    rw [dispatchEvent_liveWatchdogs, hst.2]
    simp [hl]
  · intro ha
    unfold reconnectIfNeeded
    rw [if_neg (by simp)]
    dsimp only
    rw [if_neg (by simp [ha])]
    dsimp only
    have htw := transitionToState_watchdog_of_ne ConnState.reconnecting
      { s with connectionToken := none } (by decide) (by decide)
    have hst := stopConnectionWatchdog_some
      (transitionToState ConnState.reconnecting { s with connectionToken := none }) t
      (by rw [htw.1]; exact hw)
    have h2 : (stopConnectionWatchdog
        (transitionToState ConnState.reconnecting
          { s with connectionToken := none })).liveWatchdogs = [] := by
      rw [hst.2, htw.2]
      simp [hl]
    refine ⟨by simp [hst.1], by simp [h2], by simp [transitionToState_state_eq]⟩
  · have hst := stopConnectionWatchdog_some
      { s with connectionToken := none, heartbeatTimer := none } t hw
    have h2 : (stopConnectionWatchdog
        { s with connectionToken := none, heartbeatTimer := none }).liveWatchdogs = [] := by
      rw [hst.2]
      simp [hl]
    exact ⟨by simp [shutdown, hst.1], by simp [shutdown, h2]⟩
  · intro s' t' h
    unfold fireWatchdog
    rw [if_neg (by simp [h])]
  · intro ha
    have hrw : reconnectIfNeeded none s =
        transitionToState ConnState.disconnected { s with connectionToken := none } := by
      unfold reconnectIfNeeded
      rw [if_neg (by simp)]
      dsimp only
      rw [if_pos (by simp [ha])]
    have htw := transitionToState_watchdog_of_ne ConnState.disconnected
      { s with connectionToken := none } (by decide) (by decide)
    have hlv : (reconnectIfNeeded none s).liveWatchdogs = [t] := by
      rw [hrw, htw.2]
      exact hl
    refine ⟨?_, hlv, ?_⟩
    · rw [hrw]
      exact transitionToState_state_eq _ _
    · exact fireWatchdog_mem t _ (by rw [hlv]; exact List.mem_singleton.mpr rfl)

/-- C2 witness: on the Supervisor that just entered `Limbo` (watchdog `0`
armed), a confirmed handshake disarms the watchdog, while the inactive
failure path leaves it armed and the later firing dispatches the timeout. -/
theorem C2_witness :
    (resolveHandshake 0 true (runOp SupOp.wsOpen initS)).connectionWatchdog = none ∧
    (resolveHandshake 0 true (runOp SupOp.wsOpen initS)).liveWatchdogs = [] ∧
    SupEvent.connectiontimeout ∈
      (fireWatchdog 0 (reconnectIfNeeded none (runOp SupOp.wsOpen initS))).events :=
  ⟨((C2_watchdog_amended (runOp SupOp.wsOpen initS) 0 0 (by decide) (by decide)
      (by decide)).2.1 (by decide)).1,
   ((C2_watchdog_amended (runOp SupOp.wsOpen initS) 0 0 (by decide) (by decide)
      (by decide)).2.1 (by decide)).2,
   ((C2_watchdog_amended (runOp SupOp.wsOpen initS) 0 0 (by decide) (by decide)
      (by decide)).2.2.2.2.2 (by decide)).2.2⟩

/-!
## Correlator dispatch
-/

lemma find?_append_of_forall_neg {α : Type} (p : α → Bool) (l1 l2 : List α)
    (h : ∀ x ∈ l1, p x = false) : (l1 ++ l2).find? p = l2.find? p := by
  induction l1 with
  | nil => rfl
  | cons a l ih =>
      rw [List.cons_append, List.find?_cons_of_neg _ (by simp [h a (List.mem_cons_self a l)])]
      exact ih (fun x hx => h x (List.mem_cons_of_mem a hx))

lemma filter_ne_middle {Msg Resp Err : Type} (l1 l2 : List (PendingCommand Msg Resp Err))
    (m : PendingCommand Msg Resp Err)
    (h1 : ∀ x ∈ l1, x.cid ≠ m.cid) (h2 : ∀ x ∈ l2, x.cid ≠ m.cid) :
    (l1 ++ m :: l2).filter (fun c => c.cid ≠ m.cid) = l1 ++ l2 := by
  rw [List.filter_append]
  congr 1
  · exact List.filter_eq_self.mpr (fun a ha => by simp [h1 a ha])
  · rw [List.filter_cons_of_neg (by simp)]
    exact List.filter_eq_self.mpr (fun a ha => by simp [h2 a ha])

lemma tryHandle_no_match {Msg Resp Err : Type} (p : List (PendingCommand Msg Resp Err))
    (msg : Msg) (h : ∀ x ∈ p, x.command.responseMatches msg = false) :
    tryHandleAsControlMessage p msg = Except.ok (false, p, none) := by
  unfold tryHandleAsControlMessage
  rw [List.find?_eq_none.mpr (fun x hx => by simp [h x hx])]

/-- C3 counterexample: with two pending exchanges whose match predicates
both accept the same message, the first dispatch resolves and removes the
first one, but a second dispatch of the same message is again "handled"
(it resolves the second exchange) rather than "not handled" as claimed. -/
theorem C3_second_dispatch_counterexample :
    tryHandleAsControlMessage
        ([⟨0, okCmd⟩, ⟨1, okCmd⟩] : List (PendingCommand Nat Nat Nat)) 5 =
      Except.ok (true, [⟨1, okCmd⟩], some (0, 6)) ∧
    tryHandleAsControlMessage ([⟨1, okCmd⟩] : List (PendingCommand Nat Nat Nat)) 5 =
      Except.ok (true, [], some (1, 6)) ∧
    tryHandleAsControlMessage ([⟨1, okCmd⟩] : List (PendingCommand Nat Nat Nat)) 5 ≠
      Except.ok (false, [⟨1, okCmd⟩], none) := by
  refine ⟨rfl, rfl, ?_⟩
  intro h
  rw [show tryHandleAsControlMessage ([⟨1, okCmd⟩] : List (PendingCommand Nat Nat Nat)) 5 =
      Except.ok (true, [], some (1, 6)) from rfl] at h
  simp at h

/-- C3 (amended): `tryHandleAsControlMessage` resolves the first pending
exchange in issuance order whose match predicate accepts the message with
the result of that command's response-handling transform, removes exactly
that exchange (identified by its object identity `cid`, unique in the
pending list), leaves all other exchanges untouched, and returns
"handled"; if no pending exchange matches, it returns "not handled" and
mutates nothing; consequently a second dispatch of the same message after
the match was removed returns "not handled" provided no other pending
exchange matches that message. -/
theorem C3_first_match_dispatch {Msg Resp Err : Type}
    (l1 l2 : List (PendingCommand Msg Resp Err))
    (m : PendingCommand Msg Resp Err) (msg : Msg) (r : Resp)
    (hnodup : ((l1 ++ m :: l2).map (fun c => c.cid)).Nodup)
    (h1 : ∀ x ∈ l1, x.command.responseMatches msg = false)
    (hm : m.command.responseMatches msg = true)
    (hr : m.command.handleResponse msg = Except.ok r) :
    tryHandleAsControlMessage (l1 ++ m :: l2) msg =
      Except.ok (true, l1 ++ l2, some (m.cid, r)) ∧
    (∀ p : List (PendingCommand Msg Resp Err),
       (∀ x ∈ p, x.command.responseMatches msg = false) →
       tryHandleAsControlMessage p msg = Except.ok (false, p, none)) ∧
    ((∀ x ∈ l2, x.command.responseMatches msg = false) →
       tryHandleAsControlMessage (l1 ++ l2) msg = Except.ok (false, l1 ++ l2, none)) := by
  have hmap : (l1 ++ m :: l2).map (fun c => c.cid) =
      l1.map (fun c => c.cid) ++ m.cid :: l2.map (fun c => c.cid) := by simp
  rw [hmap] at hnodup
  obtain ⟨hn1, hn2, hdisj⟩ := List.nodup_append.mp hnodup
  have hcid1 : ∀ x ∈ l1, x.cid ≠ m.cid := by
    intro x hx heq
    exact hdisj (List.mem_map_of_mem (fun c => c.cid) hx)
      (by rw [heq]; exact List.mem_cons_self _ _)
  have hcid2 : ∀ x ∈ l2, x.cid ≠ m.cid := by
    intro x hx heq
    have := (List.nodup_cons.mp hn2).1
    exact this (by rw [← heq]; exact List.mem_map_of_mem (fun c => c.cid) hx)
  refine ⟨?_, fun p hp => tryHandle_no_match p msg hp, ?_⟩
  · have hfind : (l1 ++ m :: l2).find? (fun c => c.command.responseMatches msg) = some m := by
      rw [find?_append_of_forall_neg _ l1 (m :: l2) h1]
      exact List.find?_cons_of_pos _ hm
    unfold tryHandleAsControlMessage
    rw [hfind]
    simp only [hr]
    rw [filter_ne_middle l1 l2 m hcid1 hcid2]
  · intro hno
    exact tryHandle_no_match (l1 ++ l2) msg
      (fun x hx => by
        rcases List.mem_append.mp hx with hx | hx
        · exact h1 x hx
        · exact hno x hx)

/-- C3 witness: issue a non-matching, a matching and another non-matching
exchange; dispatching resolves exactly the matching one with the
transform's result, and a second dispatch of the same message is "not
handled". -/
theorem C3_witness :
    tryHandleAsControlMessage
        ([⟨0, noCmd⟩, ⟨1, okCmd⟩, ⟨2, noCmd⟩] : List (PendingCommand Nat Nat Nat)) 5 =
      Except.ok (true, [⟨0, noCmd⟩, ⟨2, noCmd⟩], some (1, 6)) ∧
    tryHandleAsControlMessage
        ([⟨0, noCmd⟩, ⟨2, noCmd⟩] : List (PendingCommand Nat Nat Nat)) 5 =
      Except.ok (false, [⟨0, noCmd⟩, ⟨2, noCmd⟩], none) :=
  ⟨(C3_first_match_dispatch [⟨0, noCmd⟩] [⟨2, noCmd⟩] ⟨1, okCmd⟩ 5 6
      (by decide) (by decide) rfl rfl).1,
   (C3_first_match_dispatch [⟨0, noCmd⟩] [⟨2, noCmd⟩] ⟨1, okCmd⟩ 5 6
      (by decide) (by decide) rfl rfl).2.2 (by decide)⟩
